import Mathlib

/-!
Shallow embedding of `src/scripts/pbc-config/src/main.rs`, the Etrid PBC
bridge configuration CLI, together with proofs about the behaviour of its
operations (`configure_bridge`, `configure_all`, `query_state`,
`update_parameter`) and of the endpoint resolution performed by the command
arms of `main`.

Effects are made explicit: each operation returns the list of observable
events it performs (connections opened, per-chain configuration work,
remote submissions) together with its result.  In the current source every
remote call is a commented-out template, so no operation ever emits a
`remoteSubmit` event.
-/

namespace PbcConfig

/-- Mirrors `ChainConfig` (main.rs lines 86-95); `decimals: u8` is a `Nat`
below 256, but no theorem here depends on the bound. -/
structure ChainConfig where
  pbc_name : String
  pbc_endpoint : String
  http_endpoint : String
  token_address : String
  exchange_rate : String
  bridge_address : String
  decimals : Nat
deriving DecidableEq

/-- Mirrors `FlareChainConfig` (main.rs lines 97-101). -/
structure FlareChainConfig where
  endpoint : String
  http_endpoint : String
deriving DecidableEq

/-- Mirrors `BridgeConfiguration` (main.rs lines 103-109); the
`HashMap<String, u32>` of confirmation blocks is modelled as an
association list. -/
structure BridgeConfiguration where
  max_transfer_amount : String
  min_transfer_amount : String
  bridge_fee_percent : String
  confirmation_blocks : List (String × Nat)
deriving DecidableEq

/-- Mirrors `Config` (main.rs lines 77-84); `chains: HashMap<String,
ChainConfig>` is modelled as an association list with unique keys.  Rust
`HashMap` iteration order is arbitrary, so no theorem below relies on the
order of this list except where the source itself fixes an order. -/
structure Config where
  operator : String
  relayers : List String
  chains : List (String × ChainConfig)
  flarechain : FlareChainConfig
  configuration : BridgeConfiguration
deriving DecidableEq

/-- The error surface of the tool.  The `anyhow` errors are modelled by
their source: the `context` message "Chain ... not found" and connection
failures.  The source defines no `InvalidExchangeRate`, `InvalidParameter`
or `InvalidValue` failure anywhere. -/
inductive ErrKind where
  | chainNotFound (chain : String)
  | connectionFailed (endpoint : String)
deriving DecidableEq

/-- Observable effects of a run.  `connect` is an attempt to open a session
(`BridgeConfigurator::connect`, lines 129-138); `bridgeWork` records that
`configure_bridge` executed its per-chain (dry-run) body for a chain;
`remoteSubmit` would record a network submission — the current source never
performs one; `unknownQueryLogged` records the `error!` log emitted by
`query_state` for an unrecognized query type. -/
inductive Event where
  | connect (endpoint : String)
  | bridgeWork (chain : String)
  | remoteSubmit (chain : String)
  | unknownQueryLogged (query_type : String)
deriving DecidableEq

/-- `BridgeConfigurator::configure_bridge` (main.rs lines 140-180): looks
the chain up in the config (failing with the "not found" context error),
then logs the chain's parameters and returns `Ok(())` — every actual
extrinsic call is inside a comment, and `exchange_rate` is never parsed. -/
def configure_bridge (cfg : Config) (chain : String) :
    List Event × Except ErrKind Unit :=
  match cfg.chains.lookup chain with
  | none => ([], Except.error (ErrKind.chainNotFound chain))
  | some _ => ([Event.bridgeWork chain], Except.ok ())

/-- The sequential branch of `configure_all` (main.rs lines 194-197):
`for chain in &chains_to_configure { self.configure_bridge(chain).await?; }`
— the `?` operator stops at and propagates the first failure. -/
def seqLoop (cfg : Config) : List String → List Event × Except ErrKind Unit
  | [] => ([], Except.ok ())
  | c :: rest =>
    match configure_bridge cfg c with
    | (ev, Except.error e) => (ev, Except.error e)
    | (ev, Except.ok _) =>
      let r := seqLoop cfg rest
      (ev ++ r.1, r.2)

/-- `BridgeConfigurator::configure_all` (main.rs lines 182-211): resolves
the chain list (explicit filter, else the config's key set), then either
runs the sequential loop or — in the parallel branch (lines 198-208) —
only logs per chain and returns `Ok(())` without calling
`configure_bridge` at all ("Parallel mode template - implement with
tokio::spawn"). -/
def configure_all (cfg : Config) (chains : Option (List String))
    (sequential : Bool) : List Event × Except ErrKind Unit :=
  let chains_to_configure := chains.getD (cfg.chains.map Prod.fst)
  if sequential then
    seqLoop cfg chains_to_configure
  else
    ([], Except.ok ())

/-- `BridgeConfigurator::query_state` (main.rs lines 240-266): every
recognized branch is a TODO stub that only logs; the wildcard branch logs
"Unknown query type" via `error!`; all branches fall through to `Ok(())`. -/
def query_state (chain : String) (query_type : String) :
    List Event × Except ErrKind Unit :=
  if query_type = "token-mapping" then ([], Except.ok ())
  else if query_type = "relayers" then ([], Except.ok ())
  else if query_type = "parameters" then ([], Except.ok ())
  else if query_type = "all" then ([], Except.ok ())
  else ([Event.unknownQueryLogged query_type], Except.ok ())

/-- `BridgeConfigurator::update_parameter` (main.rs lines 268-288): logs
the request and returns `Ok(())`; the intended match on the parameter name
(and the `value.parse()?` calls) exists only inside a comment. -/
def update_parameter (chain : String) (parameter : String) (value : String) :
    List Event × Except ErrKind Unit :=
  ([], Except.ok ())

/-- Endpoint resolution as performed by the `Configure`, `Verify`, `Query`
and `Update` arms of `main` (e.g. lines 310-316 and 352-357): the chain is
looked up first (failing with "Chain ... not found"), then
`cli.endpoint.as_ref().unwrap_or(&chain_config.pbc_endpoint)` picks the
override whenever it is present — `unwrap_or` performs no emptiness
check. -/
def resolve_endpoint (cfg : Config) (chain : String)
    (endpointOverride : Option String) : Except ErrKind String :=
  match cfg.chains.lookup chain with
  | none => Except.error (ErrKind.chainNotFound chain)
  | some cc => Except.ok (endpointOverride.getD cc.pbc_endpoint)

/-- Rust `char::is_whitespace`-based trimming of a character list, used to
model `str::trim`. -/
def trimChars (cs : List Char) : List Char :=
  ((cs.dropWhile Char.isWhitespace).reverse.dropWhile Char.isWhitespace).reverse

/-- Models Rust `str::trim`. -/
def rustTrim (s : String) : String :=
  String.mk (trimChars s.toList)

/-- Models Rust `str::split(',')`: splits at every comma, keeping empty
pieces (so `"".split(',')` yields one empty piece). -/
def splitCommaAux : List Char → List Char → List String
  | [], acc => [String.mk acc.reverse]
  | ch :: rest, acc =>
    if ch = ',' then String.mk acc.reverse :: splitCommaAux rest []
    else splitCommaAux rest (ch :: acc)

/-- The `ConfigureAll` arm's list parsing (main.rs lines 321-323):
`c.split(',').map(|s| s.trim().to_string()).collect()`. -/
def parse_chain_list (s : String) : List String :=
  (splitCommaAux s.toList []).map rustTrim

/-- The `ConfigureAll` arm of `main` (main.rs lines 320-331): parses the
optional `--chains` list, resolves the FlareChain endpoint (override, else
`config.flarechain.endpoint`), connects to it, and only then calls
`configure_all`.  `connectOk` abstracts whether the remote endpoint
accepts the session. -/
def main_configure_all (connectOk : String → Bool) (cfg : Config)
    (endpointOverride : Option String) (sequential : Bool)
    (chainsArg : Option String) : List Event × Except ErrKind Unit :=
  let chain_list := chainsArg.map parse_chain_list
  let endpoint := endpointOverride.getD cfg.flarechain.endpoint
  if connectOk endpoint then
    let r := configure_all cfg chain_list sequential
    (Event.connect endpoint :: r.1, r.2)
  else
    ([Event.connect endpoint], Except.error (ErrKind.connectionFailed endpoint))

/-- Modelled from the spec: the on-chain token mapping that the (entirely
commented-out) `set_token_mapping` extrinsic of `configure_bridge` would
write — token address, exchange rate, bridge address and decimals for one
chain (spec §4.3 ApplyMapping; the commented template at main.rs lines
153-174). -/
structure TokenMapping where
  token_address : String
  exchange_rate : String
  bridge_address : String
  decimals : Nat
deriving DecidableEq

/-- On-chain bridge state: chain name to its current token mapping. -/
abbrev BridgeState := List (String × TokenMapping)

/-- Modelled from the spec: writing a chain's token mapping is a "set", not
an "increment" — the entry for the chain is replaced if present, appended
otherwise. -/
def setMapping : BridgeState → String → TokenMapping → BridgeState
  | [], chain, m => [(chain, m)]
  | (c, m0) :: rest, chain, m =>
    if c = chain then (chain, m) :: rest
    else (c, m0) :: setMapping rest chain m

/-- Modelled from the spec: the ApplyMapping operation's effect on observed
on-chain state.  The chain lookup and its failure are taken from the real
`configure_bridge` (main.rs lines 141-142); the remote write itself is
unimplemented in the source and is modelled as `setMapping` per spec §4.3
("idempotent set, not increment"). -/
def apply_mapping (cfg : Config) (chain : String) (s : BridgeState) :
    Except ErrKind BridgeState :=
  match cfg.chains.lookup chain with
  | none => Except.error (ErrKind.chainNotFound chain)
  | some cc =>
      Except.ok (setMapping s chain
        ⟨cc.token_address, cc.exchange_rate, cc.bridge_address, cc.decimals⟩)

/-- A sample chain configuration used in concrete evaluations. -/
def ccBar : ChainConfig :=
  { pbc_name := "bar-pbc"
  , pbc_endpoint := "wss://bar"
  , http_endpoint := "http://bar"
  , token_address := "0xBAR"
  , exchange_rate := "1.0"
  , bridge_address := "0xBBB"
  , decimals := 18 }

/-- A sample configuration whose chain map contains exactly one chain,
named `bar`. -/
def cfgBar : Config :=
  { operator := "op"
  , relayers := ["r1"]
  , chains := [("bar", ccBar)]
  , flarechain := { endpoint := "wss://flare", http_endpoint := "http://flare" }
  , configuration :=
      { max_transfer_amount := "1000000"
      , min_transfer_amount := "1"
      , bridge_fee_percent := "0.5"
      , confirmation_blocks := [("bar", 12)] } }

/-- A chain configuration whose `exchange_rate` does not parse as a
number. -/
def ccBad : ChainConfig :=
  { pbc_name := "solana-pbc"
  , pbc_endpoint := "wss://solana"
  , http_endpoint := "http://solana"
  , token_address := "0xSOL"
  , exchange_rate := "not-a-number"
  , bridge_address := "0xSBB"
  , decimals := 9 }

/-- A sample configuration whose single chain `solana` carries an
unparseable exchange rate. -/
def cfgBad : Config :=
  { operator := "op"
  , relayers := ["r1"]
  , chains := [("solana", ccBad)]
  , flarechain := { endpoint := "wss://flare", http_endpoint := "http://flare" }
  , configuration :=
      { max_transfer_amount := "1000000"
      , min_transfer_amount := "1"
      , bridge_fee_percent := "0.5"
      , confirmation_blocks := [("solana", 32)] } }

/-- The token mapping that `apply_mapping` writes for `bar` under
`cfgBar`. -/
def mBar : TokenMapping := ⟨"0xBAR", "1.0", "0xBBB", 18⟩

/-- If every chain in the list is present in the config, the sequential
loop performs the per-chain work of every chain, in list order, and
succeeds. -/
theorem seqLoop_all_present (cfg : Config) :
    ∀ l : List String, (∀ x ∈ l, (cfg.chains.lookup x).isSome) →
      seqLoop cfg l = (l.map Event.bridgeWork, Except.ok ()) := by
  intro l
  induction l with
  | nil => intro _; rfl
  | cons c rest ih =>
    intro h
    obtain ⟨cc, hcc⟩ := Option.isSome_iff_exists.mp (h c (by simp))
    have hr := ih (fun x hx => h x (by simp [hx]))
    simp [seqLoop, configure_bridge, hcc, hr]

/-- If every chain of `pre` is present and `c` is absent, the sequential
loop performs exactly the work of `pre` (in order), then stops with the
"chain not found" failure: nothing after `c` is attempted. -/
theorem seqLoop_stops_at_missing (cfg : Config) (c : String)
    (post : List String) (hc : cfg.chains.lookup c = none) :
    ∀ pre : List String, (∀ x ∈ pre, (cfg.chains.lookup x).isSome) →
      seqLoop cfg (pre ++ c :: post)
        = (pre.map Event.bridgeWork, Except.error (ErrKind.chainNotFound c)) := by
  intro pre
  induction pre with
  | nil => intro _; simp [seqLoop, configure_bridge, hc]
  | cons p rest ih =>
    intro h
    obtain ⟨cc, hcc⟩ := Option.isSome_iff_exists.mp (h p (by simp))
    have hr := ih (fun x hx => h x (by simp [hx]))
    simp [seqLoop, configure_bridge, hcc, hr]

/-- Setting the same mapping twice in a row leaves the state exactly as
setting it once. -/
theorem setMapping_idem (s : BridgeState) (chain : String) (m : TokenMapping) :
    setMapping (setMapping s chain m) chain m = setMapping s chain m := by
  induction s with
  | nil => simp [setMapping]
  | cons hd tl ih =>
    obtain ⟨c, m0⟩ := hd
    by_cases hcc : c = chain
    · subst hcc; simp [setMapping]
    · simp [setMapping, hcc, ih]

/-- C1 (code behaviour at the failing input): with a configuration whose
chain map holds only `bar`, `configure-all --chains foo,bar` in the default
(parallel) mode opens the FlareChain connection and returns success — no
`ChainNotFound` at all; and in sequential mode with `--chains bar,foo` it
opens the connection and performs the per-chain work for `bar` before
failing on `foo`.  The claim instead requires failing with `ChainNotFound`
before any connection is opened and before any per-chain work. -/
theorem configure_all_missing_chain_connects_first :
    main_configure_all (fun _ => true) cfgBar none false (some "foo,bar")
      = ([Event.connect "wss://flare"], Except.ok ())
    ∧ main_configure_all (fun _ => true) cfgBar none true (some "bar,foo")
      = ([Event.connect "wss://flare", Event.bridgeWork "bar"],
          Except.error (ErrKind.chainNotFound "foo")) :=
  ⟨rfl, rfl⟩

/-- C2 (code behaviour): `update_parameter` performs no validation at all —
for every chain, parameter name and value (in particular `fee` with value
`150`, and any unrecognized name) it performs no event and returns
`Ok(())`; no `InvalidParameter` or `InvalidValue` failure exists in the
code. -/
theorem update_parameter_never_validates
    (chain : String) (parameter : String) (value : String) :
    update_parameter chain parameter value = ([], Except.ok ()) := rfl

/-- C3 (code behaviour at the failing input): `cfgBar` declares exactly one
chain, yet `configure-all` with no filter in the default (parallel) mode
dispatches zero per-chain operations and returns success — not one Outcome
per declared chain. -/
theorem configure_all_default_dispatches_nothing :
    cfgBar.chains.length = 1
    ∧ configure_all cfgBar none false = ([], Except.ok ()) :=
  ⟨rfl, rfl⟩

/-- C4 (code behaviour): for every chain present in the configuration,
`configure_bridge` performs its dry-run work and returns `Ok(())`
regardless of the chain's `exchange_rate` string — the rate is never
parsed and no `InvalidExchangeRate` failure exists in the code. -/
theorem configure_bridge_ignores_exchange_rate (cfg : Config) (chain : String)
    (cc : ChainConfig) (h : cfg.chains.lookup chain = some cc) :
    configure_bridge cfg chain = ([Event.bridgeWork chain], Except.ok ()) := by
  simp [configure_bridge, h]

/-- Witness for C4: the chain `solana` of `cfgBad` has the unparseable
exchange rate "not-a-number", yet `configure_bridge` succeeds on it. -/
theorem configure_bridge_ignores_exchange_rate_witness :
    ccBad.exchange_rate = "not-a-number"
    ∧ configure_bridge cfgBad "solana"
        = ([Event.bridgeWork "solana"], Except.ok ()) :=
  ⟨rfl, configure_bridge_ignores_exchange_rate cfgBad "solana" ccBad rfl⟩

/-- C5 counterexample: with an override that is present but empty,
endpoint resolution returns the empty override, not the chain's declared
primary endpoint `wss://bar` — the claim's "present and non-empty"
condition does not hold of the code. -/
theorem resolve_endpoint_empty_override_used :
    resolve_endpoint cfgBar "bar" (some "") = Except.ok ""
    ∧ ccBar.pbc_endpoint = "wss://bar"
    ∧ resolve_endpoint cfgBar "bar" (some "") ≠ Except.ok "wss://bar" := by
  refine ⟨rfl, rfl, fun h => ?_⟩
  rw [show resolve_endpoint cfgBar "bar" (some "") = Except.ok "" from rfl] at h
  exact absurd (Except.ok.inj h) (by decide)

/-- C5 (amended): endpoint resolution returns the override exactly when it
is present — even when it is the empty string — otherwise the chain's
declared primary endpoint, and fails with `ChainNotFound` exactly when the
chain name is absent from the configuration's chain map. -/
theorem resolve_endpoint_behavior (cfg : Config) (chain : String)
    (o : Option String) :
    (∀ cc, cfg.chains.lookup chain = some cc →
        resolve_endpoint cfg chain o = Except.ok (o.getD cc.pbc_endpoint))
    ∧ (cfg.chains.lookup chain = none →
        resolve_endpoint cfg chain o
          = Except.error (ErrKind.chainNotFound chain)) := by
  constructor
  · intro cc hcc; simp [resolve_endpoint, hcc]
  · intro hn; simp [resolve_endpoint, hn]

/-- Witness for the amended C5: under `cfgBar`, a present override is
returned for `bar`, and resolution for the absent chain `foo` fails with
`ChainNotFound`. -/
theorem resolve_endpoint_behavior_witness :
    resolve_endpoint cfgBar "bar" (some "wss://alt") = Except.ok "wss://alt"
    ∧ resolve_endpoint cfgBar "foo" none
        = Except.error (ErrKind.chainNotFound "foo") :=
  ⟨(resolve_endpoint_behavior cfgBar "bar" (some "wss://alt")).1 ccBar rfl,
   (resolve_endpoint_behavior cfgBar "foo" none).2 rfl⟩

/-- C6 (code behaviour): for every chain, `query_state` with kind `all`
performs no sub-query at all and returns a bare `Ok(())` — no
TokenMapping, Relayers or Parameters sub-result is populated, because the
`all` branch is a TODO stub that only logs. -/
theorem query_state_all_returns_no_data (chain : String) :
    query_state chain "all" = ([], Except.ok ()) := rfl

/-- C7: applying the same token mapping twice in succession yields the same
observed bridge state as applying it once — if `apply_mapping` turns state
`s` into `t`, applying it again to `t` returns `t` unchanged
(idempotent set, not increment). -/
theorem apply_mapping_idempotent (cfg : Config) (chain : String)
    (s t : BridgeState) (h : apply_mapping cfg chain s = Except.ok t) :
    apply_mapping cfg chain t = Except.ok t := by
  unfold apply_mapping at h ⊢
  cases hl : cfg.chains.lookup chain with
  | none => rw [hl] at h; exact absurd h (by simp)
  | some cc =>
    rw [hl] at h
    simp only [Except.ok.injEq] at h
    subst h
    simp [setMapping_idem]

/-- Witness for C7: starting from the empty bridge state, applying the
mapping for `bar` once yields the singleton state, and applying it again
leaves that state unchanged. -/
theorem apply_mapping_idempotent_witness :
    apply_mapping cfgBar "bar" [("bar", mBar)]
      = Except.ok [("bar", mBar)] :=
  apply_mapping_idempotent cfgBar "bar" [] [("bar", mBar)] rfl

/-- C8: in sequential mode `configure_all` runs the per-chain operations
strictly in submission order, and stops at the first failure: when every
chain of the resolved list is present the work happens for each chain in
list order and the run succeeds; when the list is `pre ++ c :: post` with
every chain of `pre` present and `c` absent, exactly the work of `pre`
happens (in order), nothing after `c` is attempted, and the failure for
`c` is propagated to the caller. -/
theorem configure_all_sequential_ordered_stops (cfg : Config)
    (co : Option (List String)) :
    ((∀ x ∈ co.getD (cfg.chains.map Prod.fst), (cfg.chains.lookup x).isSome) →
      configure_all cfg co true
        = ((co.getD (cfg.chains.map Prod.fst)).map Event.bridgeWork,
            Except.ok ()))
    ∧ (∀ pre c post, co.getD (cfg.chains.map Prod.fst) = pre ++ c :: post →
        (∀ x ∈ pre, (cfg.chains.lookup x).isSome) →
        cfg.chains.lookup c = none →
        configure_all cfg co true
          = (pre.map Event.bridgeWork,
              Except.error (ErrKind.chainNotFound c))) := by
  have hca : configure_all cfg co true
      = seqLoop cfg (co.getD (cfg.chains.map Prod.fst)) := by
    simp [configure_all]
  constructor
  · intro h
    rw [hca]
    exact seqLoop_all_present cfg _ h
  · intro pre c post heq hpre hc
    rw [hca, heq]
    exact seqLoop_stops_at_missing cfg c post hc pre hpre

/-- Witness for C8: under `cfgBar`, sequentially configuring `bar` then
`foo` performs the work for `bar` and then stops with `ChainNotFound` for
`foo`. -/
theorem configure_all_sequential_ordered_stops_witness :
    configure_all cfgBar (some ["bar", "foo"]) true
      = ([Event.bridgeWork "bar"],
          Except.error (ErrKind.chainNotFound "foo")) :=
  (configure_all_sequential_ordered_stops cfgBar (some ["bar", "foo"])).2
    ["bar"] "foo" [] rfl (by decide) rfl

/-- C9: for every chain and every query type other than `token-mapping`,
`relayers`, `parameters` and `all`, `query_state` only logs the unknown
type and returns `Ok(())` — an unrecognized query type is accepted, not an
error. -/
theorem query_state_unknown_type_ok (chain : String) (q : String)
    (h1 : q ≠ "token-mapping") (h2 : q ≠ "relayers")
    (h3 : q ≠ "parameters") (h4 : q ≠ "all") :
    query_state chain q = ([Event.unknownQueryLogged q], Except.ok ()) := by
  simp [query_state, h1, h2, h3, h4]

/-- Witness for C9: the unrecognized query type `bogus` is accepted with
only a log event. -/
theorem query_state_unknown_type_ok_witness :
    query_state "solana" "bogus"
      = ([Event.unknownQueryLogged "bogus"], Except.ok ()) :=
  query_state_unknown_type_ok "solana" "bogus"
    (by decide) (by decide) (by decide) (by decide)

/-- C10: in the default (parallel) mode, `configure_all` performs no
per-chain configuration at all — `configure_bridge` is never invoked for
any chain, including chains absent from the configuration — and the call
returns success unconditionally, for every configuration and every chain
list. -/
theorem configure_all_parallel_noop (cfg : Config)
    (chains : Option (List String)) :
    configure_all cfg chains false = ([], Except.ok ()) := rfl

end PbcConfig
